import Mathlib

/-!
Shallow embedding of the My-Wallet-V3 client core (wallet.js, address.js)
for verification of its natural-language specification.

The wallet.js module keeps its mutable session state in the WalletStore
collaborator plus a module-level boolean; here that state is an explicit
record threaded through each operation.  Network responses, crypto outcomes
and timer behaviour are supplied as explicit oracle inputs, and each
operation returns its final state together with a trace of observable
effects (network calls, emitted events, caller-callback invocations).
-/

namespace MyWalletV3

/-- A JavaScript optional value: a field may be `undefined`, `null`, or hold
a value.  `undefined` and `null` are distinct (JSON.stringify drops
`undefined`-valued keys but keeps `null` ones). -/
inductive JsOpt (α : Type) : Type
  | undef : JsOpt α
  | null : JsOpt α
  | val : α → JsOpt α
  deriving Repr, DecidableEq

/-- Observable effects of a wallet.js operation, in execution order:
network calls, WalletStore events, caller-supplied callback invocations and
selected store mutations whose ordering the spec talks about. -/
inductive Effect : Type
  | apiRequest (verb : String) (path : String)
  | uploadPayload (payload : String) (checksum : String) (oldChecksum : Option String)
  | checkChecksum (checksum : String)
  | submit2FACode (code : String)
  | encryptAttempt
  | selfDecryptCheck (ok : Bool)
  | refetchWallet
  | getHistory
  | socketConnect
  | event (name : String)
  | callback (name : String)
  | setRestoring (b : Bool)
  | setTimeoutDelay (ms : Nat)
  | locationReplace (url : String)
  deriving Repr, DecidableEq

/-- The WalletStore collaborator's state together with the module-level
`isInitialized` variable of wallet.js.  Modelled from the spec: the
wallet-store module itself is not among the repository files given, so its
fields follow the SyncState / EncryptedPayload / AuthSession descriptions
(payload checksum, encrypted data, password, pbkdf2 iterations, language,
sync_pubkeys, synchronization / logout / restore / polling flags and the
600-bounded polling counter). -/
structure WalletStore : Type where
  payloadChecksum : Option String
  encryptedWalletData : Option String
  password : String
  pbkdf2Iterations : Nat
  language : String
  syncPubKeys : Bool
  isSynchronizedWithServer : Bool
  logoutDisabled : Bool
  restoringWallet : Bool
  polling : Bool
  counter : Nat
  isInitialized : Bool
  deriving Repr, DecidableEq

/-- Modelled from the spec: `WalletStore.generatePayloadChecksum` — the
checksum is "a deterministic hash over the ciphertext", a pure function of
the stored encrypted payload; `none` when no payload is stored.  The hash
itself is the external collaborator `ck`. -/
def generatePayloadChecksum (ck : String → String) (s : WalletStore) : Option String :=
  s.encryptedWalletData.map ck

/-- Modelled from the spec: `WalletStore.setEncryptedWalletData` stores the
ciphertext blob and refreshes the stored payload checksum (EncryptedPayload
pairs "the ciphertext blob plus its checksum"); wallet-store.js is not among
the given files. -/
def setEncryptedWalletData (ck : String → String) (s : WalletStore) (d : String) : WalletStore :=
  { s with encryptedWalletData := some d, payloadChecksum := some (ck d) }

/-- `WalletStore.enableLogout` (wallet-store.js is not among the given
files; the spec: `isLogoutDisabled` is "held while a push is in flight"). -/
def enableLogout (s : WalletStore) : WalletStore :=
  { s with logoutDisabled := false }

/-- `WalletStore.disableLogout`. -/
def disableLogout (s : WalletStore) : WalletStore :=
  { s with logoutDisabled := true }

/-- `Helpers.isHex`, modelled from the spec: "if the previous checksum is a
valid hex string" it is sent as `old_checksum`; helpers.js is not among the
given files.  A nonempty string of hexadecimal digits. -/
def isHexString (s : String) : Bool :=
  s.length != 0 && s.data.all (fun c => c.isDigit || (c ≥ 'a' && c ≤ 'f') || (c ≥ 'A' && c ≤ 'F'))

/-- `MyWallet.logout` (wallet.js): without `force`, a logout while
`isLogoutDisabled` is set returns immediately; otherwise it emits the
`logging_out` event and issues `GET wallet/logout`.  Returns the effect
trace (the store is not mutated by logout itself). -/
def logout (force : Bool) (st : WalletStore) : List Effect :=
  if !force && st.logoutDisabled then []
  else [Effect.event "logging_out", Effect.apiRequest "GET" "wallet/logout"]

/-! ### Live Update Reconciler: `onMessage` inside `socketConnect` -/

/-- A parsed push-channel frame (`JSON.parse` of the message succeeded and
the `op` discriminator was read); `malformed` stands for a message that
failed to parse and is logged and dropped. -/
inductive WsFrame : Type
  | onChangeMsg (checksum : String)
  | utx
  | blockMsg
  | pong
  | malformed
  deriving Repr, DecidableEq

/-- Result of delivering one frame to `onMessage`: the updated
`last_on_change` closure variable, whether a wallet fetch was triggered,
and the effect trace. -/
structure MsgResult : Type where
  lastOnChange : Option String
  fetchTriggered : Bool
  effects : List Effect
  deriving Repr, DecidableEq

/-- `onMessage` (wallet.js, closure inside `socketConnect`).  For an
`on_change` frame the fetch fires only when the carried checksum differs
from the `last_on_change` closure variable (loose `!=`, `null` initially)
and from `WalletStore.generatePayloadChecksum()`; acting updates
`last_on_change`. -/
def onMessage (ck : String → String) (st : WalletStore) (lastOnChange : Option String)
    (f : WsFrame) : MsgResult :=
  match f with
  | WsFrame.malformed => { lastOnChange := lastOnChange, fetchTriggered := false, effects := [] }
  | WsFrame.onChangeMsg c =>
      let oldChecksum := generatePayloadChecksum ck st
      if lastOnChange != some c && oldChecksum != some c then
        { lastOnChange := some c, fetchTriggered := true, effects := [Effect.refetchWallet] }
      else
        { lastOnChange := lastOnChange, fetchTriggered := false, effects := [] }
  | WsFrame.utx =>
      { lastOnChange := lastOnChange, fetchTriggered := false,
        effects := [Effect.event "on_tx_received", Effect.getHistory, Effect.event "on_tx"] }
  | WsFrame.blockMsg =>
      { lastOnChange := lastOnChange, fetchTriggered := false,
        effects := [Effect.getHistory, Effect.event "on_block"] }
  | WsFrame.pong =>
      { lastOnChange := lastOnChange, fetchTriggered := false, effects := [] }

/-! ### Optimistic Sync Protocol: `syncWallet` (the push path) -/

/-- The in-memory wallet object fields `syncWallet` reads.  `sharedKey` is
`none` when the property is `null`/`undefined` in JavaScript. -/
structure WalletObj : Type where
  sharedKey : Option String
  isEncryptionConsistent : Bool
  isUpgradedToHD : Bool
  deriving Repr, DecidableEq

/-- The JavaScript guard
`!wallet.sharedKey || sharedKey.length === 0 || sharedKey.length !== 36`
of `syncWallet` (a falsy `sharedKey` covers `null`, `undefined` and the
empty string). -/
def sharedKeyInvalid : Option String → Bool
  | none => true
  | some k => k == "" || k.length == 0 || k.length != 36

/-- Oracle inputs for one `syncWallet` run: the outcome of
`WalletCrypto.encryptWallet` (a thrown error or the ciphertext), whether the
immediate `WalletCrypto.decryptWallet` self-check on that ciphertext
succeeds, the settlement of the `API.securePostCallbacks` upload, and the
verdict of `WalletNetwork.checkWalletChecksum`. -/
structure SyncEnv : Type where
  encryptOutcome : Except String String
  selfDecryptOk : Bool
  postOutcome : Except String Unit
  checksumMatches : Bool
  deriving Repr

/-- Whether the encryption oracle produced a non-empty ciphertext (the run
passes the `crypted.length == 0` guard). -/
def encryptedNonEmpty (env : SyncEnv) : Bool :=
  match env.encryptOutcome with
  | Except.ok c => c.length != 0
  | Except.error _ => false

/-- Whether the upload request settled successfully. -/
def postOk (env : SyncEnv) : Bool :=
  match env.postOutcome with
  | Except.ok _ => true
  | Except.error _ => false

/-- How a `syncWallet` invocation ends: `panicked` (encryption-consistency
check failed: redirect and an uncaught throw), `threw` (the shared-key
guard throw, uncaught), or `finished` (returned normally, callbacks
resolved). -/
inductive SyncOutcome : Type
  | panicked (msg : String)
  | threw (msg : String)
  | finished
  deriving Repr, DecidableEq

/-- Final state of a `syncWallet` run with its effect trace, which caller
callback fired and the argument passed to `errorcallback` if any. -/
structure SyncResult : Type where
  store : WalletStore
  effects : List Effect
  outcome : SyncOutcome
  successCalled : Bool
  errorArg : Option String
  deriving Repr, DecidableEq

/-- The `_errorcallback` closure of `syncWallet`: emits
`on_backup_wallet_error` and a `msg` event, re-fetches the wallet from the
server (`MyWallet.getWallet()`), and invokes the caller's error callback. -/
def syncErrorEffects : List Effect :=
  [Effect.event "on_backup_wallet_error", Effect.event "msg",
   Effect.refetchWallet, Effect.callback "errorcallback"]

/-- A `syncWallet` run that ends in the outer `catch`:
`_errorcallback(e); WalletStore.enableLogout();`. -/
def syncFail (st : WalletStore) (pre : List Effect) (e : String) : SyncResult :=
  { store := enableLogout st, effects := pre ++ syncErrorEffects,
    outcome := SyncOutcome.finished, successCalled := false, errorArg := some e }

/-- `syncWallet` (wallet.js).  Mirrors the source control flow: the
encryption-consistency panic, the shared-key guard, `disableLogout`, the
serialize/encrypt `try` block, the decrypt-again self-check (whose failure
callback throws `Decryption failed` into the outer catch), the store update
and upload with `checksum`/`old_checksum`, the post-upload checksum
verification, and `enableLogout` on each exit.  The request body also
carries length/format/language (and, under `sync_pubkeys`, the active
address list); the trace records the fields the verified properties
mention: payload, new checksum and the optional hex `old_checksum`. -/
def syncWallet (ck : String → String) (w : WalletObj) (st : WalletStore)
    (env : SyncEnv) : SyncResult :=
  if w.isEncryptionConsistent == false then
    { store := st, effects := [Effect.locationReplace "/"],
      outcome := SyncOutcome.panicked "Save disabled.",
      successCalled := false, errorArg := none }
  else if sharedKeyInvalid w.sharedKey then
    { store := st, effects := [],
      outcome := SyncOutcome.threw "Cannot backup wallet now. Shared key is not set",
      successCalled := false, errorArg := none }
  else
    let st1 := disableLogout st
    match env.encryptOutcome with
    | Except.error e => syncFail st1 [Effect.encryptAttempt] e
    | Except.ok crypted =>
      if crypted.length == 0 then
        syncFail st1 [Effect.encryptAttempt] "Error encrypting the JSON output"
      else if env.selfDecryptOk == false then
        syncFail st1 [Effect.encryptAttempt, Effect.selfDecryptCheck false] "Decryption failed"
      else
        let oldChecksum := st1.payloadChecksum
        let st2 := setEncryptedWalletData ck st1 crypted
        let newChecksum := ck crypted
        let oldCk := match oldChecksum with
          | some oc => if isHexString oc then some oc else none
          | none => none
        let preEff := [Effect.encryptAttempt, Effect.selfDecryptCheck true,
          Effect.event "on_backup_wallet_start",
          Effect.uploadPayload crypted newChecksum oldCk]
        match env.postOutcome with
        | Except.error e =>
            { store := enableLogout st2, effects := preEff ++ syncErrorEffects,
              outcome := SyncOutcome.finished, successCalled := false, errorArg := some e }
        | Except.ok _ =>
            if env.checksumMatches then
              { store := enableLogout
                  { st2 with isSynchronizedWithServer := true },
                effects := preEff ++ [Effect.checkChecksum newChecksum,
                  Effect.event "on_backup_wallet_success", Effect.callback "successcallback"],
                outcome := SyncOutcome.finished, successCalled := true, errorArg := none }
            else
              { store := enableLogout st2,
                effects := preEff ++ [Effect.checkChecksum newChecksum] ++ syncErrorEffects,
                outcome := SyncOutcome.finished, successCalled := false,
                errorArg := some "Checksum Did Not Match Expected Value" }

/-- Whether an effect is a serialization/encryption step or a network
call — the work `syncWallet` must not reach when its preconditions fail. -/
def Effect.isCryptoOrNetwork : Effect → Bool
  | Effect.apiRequest _ _ => true
  | Effect.uploadPayload _ _ _ => true
  | Effect.checkChecksum _ => true
  | Effect.submit2FACode _ => true
  | Effect.encryptAttempt => true
  | Effect.selfDecryptCheck _ => true
  | Effect.refetchWallet => true
  | _ => false

/-- Whether a trace contains the push upload. -/
def hasUpload (l : List Effect) : Bool :=
  l.any fun e => match e with
    | Effect.uploadPayload _ _ _ => true
    | _ => false

/-! ### Optimistic Sync Protocol: `getWallet` (the fetch path) and
wallet initialization -/

/-- `setIsInitialized` (wallet.js): a one-way latch; on the first call it
connects the push channel. -/
def setIsInitialized (st : WalletStore) : WalletStore × List Effect :=
  if st.isInitialized then (st, [])
  else ({ st with isInitialized := true }, [Effect.socketConnect])

/-- How `decryptAndInitializeWallet` resolves. -/
inductive DecryptInitOutcome : Type
  | noData
  | decryptFailed
  | initialized
  deriving Repr, DecidableEq

/-- `decryptAndInitializeWallet` (wallet.js): errors out when there is no
stored ciphertext; otherwise decrypts with the stored password
(`decryptOk` is the `WalletCrypto.decryptWallet` oracle, `rootIters` the
`rootContainer.pbkdf2_iterations` carried by a successful decrypt).  On
success it installs the wallet, stores the iteration count, generates a
checksum when none is stored, and latches `isInitialized`. -/
def decryptAndInitializeWallet (ck : String → String) (rootIters : Option Nat)
    (decryptOk : Bool) (st : WalletStore) : WalletStore × DecryptInitOutcome × List Effect :=
  match st.encryptedWalletData with
  | none => (st, DecryptInitOutcome.noData, [])
  | some d =>
    if d.length == 0 then (st, DecryptInitOutcome.noData, [])
    else if decryptOk then
      let st1 := match rootIters with
        | some n => { st with pbkdf2Iterations := n }
        | none => st
      let st2 :=
        if st1.payloadChecksum == none || (st1.payloadChecksum.getD "").length == 0 then
          { st1 with payloadChecksum := generatePayloadChecksum ck st1 }
        else st1
      let (st3, eff) := setIsInitialized st2
      (st3, DecryptInitOutcome.initialized, eff)
    else (st, DecryptInitOutcome.decryptFailed, [])

/-- Settlement of the `API.securePostCallbacks('wallet', …)` fetch request:
a transport error, or a response object whose `payload` property is absent
(`none`), empty, a literal `Not modified`, or fresh ciphertext. -/
inductive FetchResponse : Type
  | err (e : String)
  | ok (payload : Option String)
  deriving Repr, DecidableEq

/-- The JavaScript test `!obj.payload || obj.payload == 'Not modified'`
(an absent or empty payload is falsy). -/
def payloadAbsent : Option String → Bool
  | none => true
  | some p => p == "" || p == "Not modified"

/-- Final state of a `getWallet` run. -/
structure GetResult : Type where
  store : WalletStore
  effects : List Effect
  successCalled : Bool
  errorCalled : Bool
  deriving Repr, DecidableEq

/-- `MyWallet.getWallet` (wallet.js): posts `method: wallet.aes.json` with
the stored checksum; a response without a payload (or `Not modified`) is a
successful no-op; fresh ciphertext is stored and decrypted, and a decrypt
failure on this remote-triggered re-fetch forces `MyWallet.logout(true)`
before the error callback. -/
def getWallet (ck : String → String) (rootIters : Option Nat) (st : WalletStore)
    (resp : FetchResponse) (decryptOk : Bool) : GetResult :=
  let req := [Effect.apiRequest "POST" "wallet"]
  match resp with
  | FetchResponse.err _ =>
      { store := st, effects := req ++ [Effect.callback "error"],
        successCalled := false, errorCalled := true }
  | FetchResponse.ok payload =>
    if payloadAbsent payload then
      { store := st, effects := req ++ [Effect.callback "success"],
        successCalled := true, errorCalled := false }
    else
      let st1 := setEncryptedWalletData ck st (payload.getD "")
      let (st2, out, eff) := decryptAndInitializeWallet ck rootIters decryptOk st1
      match out with
      | DecryptInitOutcome.initialized =>
          { store := st2,
            effects := req ++ eff ++ [Effect.getHistory, Effect.callback "success"],
            successCalled := true, errorCalled := false }
      | _ =>
          { store := st2,
            effects := req ++ eff ++ logout true st2 ++ [Effect.callback "error"],
            successCalled := false, errorCalled := true }

/-- Final state of an `initializeWallet` run. -/
structure InitResult : Type where
  store : WalletStore
  effects : List Effect
  successCalled : Bool
  errorCalled : Bool
  deriving Repr, DecidableEq

/-- `MyWallet.initializeWallet` (wallet.js): a no-op when already
initialized or a restore is in progress; otherwise sets the restore guard
and the password, runs `decryptAndInitializeWallet`, and on either outcome
clears the restore guard (on success `didDecryptWallet` re-fetches the
wallet before the success callback; on error the `msg` and
`error_restoring_wallet` events precede the caller's error callback). -/
def initializeWallet (ck : String → String) (rootIters : Option Nat) (decryptOk : Bool)
    (pw : String) (st : WalletStore) : InitResult :=
  if st.isInitialized || st.restoringWallet then
    { store := st, effects := [], successCalled := false, errorCalled := false }
  else
    let st1 := { st with restoringWallet := true, password := pw }
    let (st2, out, eff) := decryptAndInitializeWallet ck rootIters decryptOk st1
    match out with
    | DecryptInitOutcome.initialized =>
        { store := { st2 with restoringWallet := false },
          effects := eff ++ [Effect.refetchWallet, Effect.callback "success"],
          successCalled := true, errorCalled := false }
    | _ =>
        { store := { st2 with restoringWallet := false },
          effects := eff ++ [Effect.event "msg", Effect.event "error_restoring_wallet",
            Effect.callback "otherError"],
          successCalled := false, errorCalled := true }

/-! ### Authentication State Machine: two-factor submission and
device-authorization polling -/

/-- A two-factor descriptor `{type, code}`; `code` is `none` when the
property is `null`. -/
structure TwoFactorAuth : Type where
  tfaType : Nat
  code : Option String
  deriving Repr, DecidableEq

/-- Settlement of the 2FA `POST wallet` (`method: get-wallet`): a rejection
routed to the error handler, or a response body (absent, empty, the literal
`Not modified`, or ciphertext). -/
inductive TwoFAResponse : Type
  | err (resp : String)
  | ok (data : Option String)
  deriving Repr, DecidableEq

/-- How a 2FA submission run ends.  The identifier `otherError` that the
invalid-code and empty-response branches invoke is declared nowhere in
wallet.js — every other path goes through `callbacks.otherError`, and
`login` asserts that callback is required.  The invalid-code branches run
synchronously before any request, so their `ReferenceError` propagates out
of `login` uncaught and no callback is reached (`threwReferenceError`);
the empty-response branch throws the same `ReferenceError` inside the
promise's success handler, where `.then(success).catch(error)` routes it
to the rejection handler instead (`returned`, via `wrongTwoFactorCode`). -/
inductive TwoFAOutcome : Type
  | threwReferenceError
  | returned
  deriving Repr, DecidableEq

/-- Final state of a `tryToFetchWalletWith2FA` run.  `submittedCode` is the
`payload` field of the POST body when a request was made. -/
structure TwoFAResult : Type where
  store : WalletStore
  effects : List Effect
  submittedCode : Option String
  successCalled : Bool
  outcome : TwoFAOutcome
  deriving Repr, DecidableEq

/-- The client-side rejection test of `tryToFetchWalletWith2FA`: the code
is `null`, empty, or longer than 255 characters. -/
def twoFAInvalid (tfa : TwoFactorAuth) : Bool :=
  match tfa.code with
  | none => true
  | some c => c.length == 0 || c.length > 255

/-- Whether the 2FA request settled on its rejection handler. -/
def TwoFAResponse.isErr : TwoFAResponse → Bool
  | TwoFAResponse.err _ => true
  | TwoFAResponse.ok _ => false

/-- The `success`/`error` response handlers of `tryToFetchWalletWith2FA`,
applied once the POST carrying `key` as its `payload` has settled: a
rejection clears the restoring-wallet flag and then calls
`wrongTwoFactorCode`; an absent or empty body hits the undeclared bare
`otherError` identifier — the `ReferenceError` it throws inside the
success handler is caught by the `.then(success).catch(error)` chain and
delivered to the same rejection handler, so that path too clears the flag
and calls `wrongTwoFactorCode` (with the `ReferenceError` as its
argument) rather than any `otherError` callback; a non-`Not modified`
body is stored as the encrypted wallet data before the success
continuation. -/
def twoFARespond (ck : String → String) (st : WalletStore) (key : String)
    (resp : TwoFAResponse) : TwoFAResult :=
  match resp with
  | TwoFAResponse.err _ =>
      { store := { st with restoringWallet := false },
        effects := [Effect.submit2FACode key, Effect.setRestoring false,
          Effect.callback "wrongTwoFactorCode"],
        submittedCode := some key, successCalled := false,
        outcome := TwoFAOutcome.returned }
  | TwoFAResponse.ok data =>
      match data with
      | none =>
          { store := { st with restoringWallet := false },
            effects := [Effect.submit2FACode key, Effect.setRestoring false,
              Effect.callback "wrongTwoFactorCode"],
            submittedCode := some key, successCalled := false,
            outcome := TwoFAOutcome.returned }
      | some d =>
        if d.length == 0 then
          { store := { st with restoringWallet := false },
            effects := [Effect.submit2FACode key, Effect.setRestoring false,
              Effect.callback "wrongTwoFactorCode"],
            submittedCode := some key, successCalled := false,
            outcome := TwoFAOutcome.returned }
        else if d != "Not modified" then
          { store := setEncryptedWalletData ck st d,
            effects := [Effect.submit2FACode key, Effect.callback "successCallback"],
            submittedCode := some key, successCalled := true,
            outcome := TwoFAOutcome.returned }
        else
          { store := st,
            effects := [Effect.submit2FACode key, Effect.callback "successCallback"],
            submittedCode := some key, successCalled := true,
            outcome := TwoFAOutcome.returned }

/-- `tryToFetchWalletWith2FA` (closure inside `MyWallet.login`): a `null`,
empty or over-255-character code makes no request, but the rejection
branch calls the bare identifier `otherError`, which wallet.js never
declares, so the run ends in an uncaught `ReferenceError` with no callback
invoked and no state touched; for a valid code, challenge types 2 (email),
4 (sms) and 5 (Google Auth) upper-case it, every other type sends it
verbatim; then the POST is issued and handled by `twoFARespond`. -/
def tryToFetchWalletWith2FA (ck : String → String) (tfa : TwoFactorAuth)
    (st : WalletStore) (resp : TwoFAResponse) : TwoFAResult :=
  match tfa.code with
  | none =>
      { store := st, effects := [],
        submittedCode := none, successCalled := false,
        outcome := TwoFAOutcome.threwReferenceError }
  | some code =>
    if code.length == 0 || code.length > 255 then
      { store := st, effects := [],
        submittedCode := none, successCalled := false,
        outcome := TwoFAOutcome.threwReferenceError }
    else
      twoFARespond ck st
        (if tfa.tfaType == 2 || tfa.tfaType == 4 || tfa.tfaType == 5 then
          code.toUpper else code)
        resp

/-- Settlement of one `GET wallet/poll-for-session-guid` request. -/
inductive PollResponse : Type
  | withGuid
  | noGuid
  | failed
  deriving Repr, DecidableEq

/-- How a polling run ends: `alreadyPolling` (guard hit, nothing done),
`pending` (a request was issued but its response never arrived),
`gotGuid`, `transportError`, or `exhausted` (counter bound reached). -/
inductive PollOutcome : Type
  | alreadyPolling
  | pending
  | gotGuid
  | transportError
  | exhausted
  deriving Repr, DecidableEq

/-- Final state of a polling run: how many poll requests were issued, the
`setTimeout` delays separating them, whether the success callback fired. -/
structure PollResult : Type where
  store : WalletStore
  requests : Nat
  delays : List Nat
  successCalled : Bool
  outcome : PollOutcome
  deriving Repr, DecidableEq

/-- The retry loop of `pollForSessionGUID`, driven by the stream of
responses: each iteration issues one request; a response with a `guid`
stops polling and fires the success callback; a response without one
retries after a 2000 ms `setTimeout` while the counter is below 600
(incrementing it) and otherwise stops; a transport error stops polling. -/
def pollLoop (st : WalletStore) : List PollResponse → PollResult
  | [] =>
      { store := st, requests := 1, delays := [], successCalled := false,
        outcome := PollOutcome.pending }
  | r :: rest =>
    match r with
    | PollResponse.withGuid =>
        { store := { st with polling := false }, requests := 1, delays := [],
          successCalled := true, outcome := PollOutcome.gotGuid }
    | PollResponse.failed =>
        { store := { st with polling := false }, requests := 1, delays := [],
          successCalled := false, outcome := PollOutcome.transportError }
    | PollResponse.noGuid =>
        if st.counter < 600 then
          let res := pollLoop { st with counter := st.counter + 1 } rest
          { res with requests := res.requests + 1, delays := 2000 :: res.delays }
        else
          { store := { st with polling := false }, requests := 1, delays := [],
            successCalled := false, outcome := PollOutcome.exhausted }

/-- `MyWallet.pollForSessionGUID` (wallet.js): returns immediately when a
poll is already in flight (`WalletStore.isPolling()`); otherwise sets the
guard and runs the bounded retry loop. -/
def pollForSessionGUID (st : WalletStore) (responses : List PollResponse) : PollResult :=
  if st.polling then
    { store := st, requests := 0, delays := [], successCalled := false,
      outcome := PollOutcome.alreadyPolling }
  else pollLoop { st with polling := true } responses

/-! ### Key Material Normalizer: the `Address` entity (address.js) -/

/-- A plain JavaScript object carrying the seven persisted address fields
(the argument of `new Address(object)` and the shape `toJSON` returns).
Field types follow their use in address.js: strings for `addr`, `priv`,
`label` and the device metadata, numbers for `tag` and `created_time`. -/
structure AddressObj : Type where
  addr : JsOpt String
  priv : JsOpt String
  label : JsOpt String
  tag : JsOpt Nat
  created_time : JsOpt Nat
  created_device_name : JsOpt String
  created_device_version : JsOpt String
  deriving Repr, DecidableEq

/-- The `Address` entity: the seven persisted private members plus the
non-saved server-updated ones (only `_balance` is carried here as their
representative; `toJSON` omits them all).  `_tag` is a plain number after
the constructor's `obj.tag || 0` defaulting. -/
structure Address : Type where
  _addr : JsOpt String
  _priv : JsOpt String
  _label : JsOpt String
  _tag : Nat
  _created_time : JsOpt Nat
  _created_device_name : JsOpt String
  _created_device_version : JsOpt String
  _balance : JsOpt Nat
  deriving Repr, DecidableEq

/-- The `Address` constructor (`function Address (object)`): copies the
seven persisted fields, defaulting a falsy `tag` to `0` (non-archived) and
starting the non-saved members at `null`. -/
def Address.ofObject (obj : AddressObj) : Address :=
  { _addr := obj.addr, _priv := obj.priv, _label := obj.label,
    _tag := match obj.tag with
      | JsOpt.val n => n
      | _ => 0,
    _created_time := obj.created_time,
    _created_device_name := obj.created_device_name,
    _created_device_version := obj.created_device_version,
    _balance := JsOpt.null }

/-- `Address.prototype.toJSON`: emits exactly the seven persisted fields
(the getters `address`, `priv`, `tag`, `label`, `created_time`,
`created_device_name`, `created_device_version`) — the `AddressObj` shape
has no member for balance or the other non-saved properties. -/
def Address.toJSON (a : Address) : AddressObj :=
  { addr := a._addr, priv := a._priv, tag := JsOpt.val a._tag, label := a._label,
    created_time := a._created_time,
    created_device_name := a._created_device_name,
    created_device_version := a._created_device_version }

/-- One field of `JSON.stringify` output: `none` when the key is omitted
(the value was `undefined`), otherwise the serialized value with `null`
kept (the inner `none`). -/
def JsOpt.serializeField {α : Type} : JsOpt α → Option (Option α)
  | JsOpt.undef => none
  | JsOpt.null => some none
  | JsOpt.val a => some (some a)

/-- Reading a field back from parsed JSON: a missing key reads as
`undefined`. -/
def JsOpt.parseField {α : Type} : Option (Option α) → JsOpt α
  | none => JsOpt.undef
  | some none => JsOpt.null
  | some (some a) => JsOpt.val a

/-- The serialized form of an address object: per key, absent or a
(possibly null) value. -/
structure SerializedAddress : Type where
  addr : Option (Option String)
  priv : Option (Option String)
  label : Option (Option String)
  tag : Option (Option Nat)
  created_time : Option (Option Nat)
  created_device_name : Option (Option String)
  created_device_version : Option (Option String)
  deriving Repr, DecidableEq

/-- `JSON.stringify` on an address object: `undefined`-valued keys are
dropped, `null` and plain values are kept. -/
def AddressObj.serialize (o : AddressObj) : SerializedAddress :=
  { addr := o.addr.serializeField, priv := o.priv.serializeField,
    label := o.label.serializeField, tag := o.tag.serializeField,
    created_time := o.created_time.serializeField,
    created_device_name := o.created_device_name.serializeField,
    created_device_version := o.created_device_version.serializeField }

/-- `JSON.parse` back into a plain object: missing keys read as
`undefined`. -/
def SerializedAddress.parse (s : SerializedAddress) : AddressObj :=
  { addr := JsOpt.parseField s.addr, priv := JsOpt.parseField s.priv,
    label := JsOpt.parseField s.label, tag := JsOpt.parseField s.tag,
    created_time := JsOpt.parseField s.created_time,
    created_device_name := JsOpt.parseField s.created_device_name,
    created_device_version := JsOpt.parseField s.created_device_version }

/-- `Address.reviver` applied to the root of the parsed JSON of
`toJSON(a)`: serialize, parse, and rebuild through the constructor. -/
def Address.jsonRoundTrip (a : Address) : Address :=
  Address.ofObject (SerializedAddress.parse (AddressObj.serialize a.toJSON))

/-- A concrete store used by the closed witness instantiations. -/
def sampleStore : WalletStore :=
  { payloadChecksum := some "ab12", encryptedWalletData := some "cipher0",
    password := "pw", pbkdf2Iterations := 5000, language := "en",
    syncPubKeys := false, isSynchronizedWithServer := false,
    logoutDisabled := false, restoringWallet := false, polling := false,
    counter := 0, isInitialized := true }

/-- A wallet object whose shared key is absent, used by the closed
witness instantiations. -/
def noKeyWallet : WalletObj :=
  { sharedKey := none, isEncryptionConsistent := true, isUpgradedToHD := false }

/-- A wallet object with a valid 36-character shared key. -/
def validWallet : WalletObj :=
  { sharedKey := some "123456789012345678901234567890123456",
    isEncryptionConsistent := true, isUpgradedToHD := true }

/-- An oracle under which every step of a push run succeeds. -/
def happySyncEnv : SyncEnv :=
  { encryptOutcome := Except.ok "cipher1", selfDecryptOk := true,
    postOutcome := Except.ok (), checksumMatches := true }

/-! ## Theorems -/

/-- Whatever the response, the 2FA response handlers report the key that
was submitted as the POST payload. -/
theorem twoFARespond_submittedCode (ck : String → String) (st : WalletStore)
    (key : String) (resp : TwoFAResponse) :
    (twoFARespond ck st key resp).submittedCode = some key := by
  cases resp with
  | err r => rfl
  | ok d =>
    cases d with
    | none => rfl
    | some s =>
      simp only [twoFARespond]
      split
      · rfl
      · split <;> rfl

/-- Round-tripping one JavaScript field value through JSON keeps it:
`undefined` is dropped by stringify and read back as `undefined`, `null`
and plain values survive. -/
theorem JsOpt.parseField_serializeField {α : Type} (v : JsOpt α) :
    JsOpt.parseField v.serializeField = v := by
  cases v <;> rfl

/-- Claim C9: `toJSON` emits exactly the seven persisted fields (its
codomain `AddressObj` has no member for the non-saved properties), and
rebuilding an `Address` from the JSON output through the
constructor/reviver preserves all seven persisted fields — including a
`null` or absent `priv` for watch-only addresses. -/
theorem address_toJSON_roundTrip (a : Address) :
    a.jsonRoundTrip._addr = a._addr ∧
    a.jsonRoundTrip._priv = a._priv ∧
    a.jsonRoundTrip._label = a._label ∧
    a.jsonRoundTrip._tag = a._tag ∧
    a.jsonRoundTrip._created_time = a._created_time ∧
    a.jsonRoundTrip._created_device_name = a._created_device_name ∧
    a.jsonRoundTrip._created_device_version = a._created_device_version := by
  obtain ⟨addr, priv, label, tag, ct, cdn, cdv, bal⟩ := a
  exact ⟨by cases addr <;> rfl, by cases priv <;> rfl, by cases label <;> rfl, rfl,
    by cases ct <;> rfl, by cases cdn <;> rfl, by cases cdv <;> rfl⟩

/-- Claim C8: a call to `initializeWallet` while the session is already
initialized or a restore is in progress returns without touching any
session state, decrypting anything, or invoking any callback. -/
theorem initializeWallet_reentrant_noop (ck : String → String) (ri : Option Nat)
    (dec : Bool) (pw : String) (st : WalletStore)
    (h : st.isInitialized = true ∨ st.restoringWallet = true) :
    initializeWallet ck ri dec pw st =
      { store := st, effects := [], successCalled := false, errorCalled := false } := by
  unfold initializeWallet
  rcases h with h | h <;> simp [h]

/-- Witness for C8 at a concrete input: `sampleStore` is initialized and a
second `initializeWallet` call is a no-op. -/
theorem initializeWallet_reentrant_noop_witness :
    sampleStore.isInitialized = true ∧
    initializeWallet (fun s => s) none true "pw2" sampleStore =
      { store := sampleStore, effects := [], successCalled := false, errorCalled := false } :=
  ⟨rfl, initializeWallet_reentrant_noop (fun s => s) none true "pw2" sampleStore (Or.inl rfl)⟩

/-- Claim C4: an `on_change` frame carrying checksum `c` triggers a wallet
fetch exactly when `c` differs from the last checksum acted upon and from
the locally stored payload checksum; when it fires, `c` becomes the new
`last_on_change`, and when suppressed nothing happens at all. -/
theorem onMessage_on_change_suppression (ck : String → String) (st : WalletStore)
    (lastOnChange : Option String) (c : String) :
    ((onMessage ck st lastOnChange (WsFrame.onChangeMsg c)).fetchTriggered = true ↔
      (lastOnChange ≠ some c ∧ generatePayloadChecksum ck st ≠ some c)) ∧
    ((onMessage ck st lastOnChange (WsFrame.onChangeMsg c)).fetchTriggered = true →
      (onMessage ck st lastOnChange (WsFrame.onChangeMsg c)).lastOnChange = some c) ∧
    ((onMessage ck st lastOnChange (WsFrame.onChangeMsg c)).fetchTriggered = false →
      (onMessage ck st lastOnChange (WsFrame.onChangeMsg c)).lastOnChange = lastOnChange ∧
      (onMessage ck st lastOnChange (WsFrame.onChangeMsg c)).effects = []) := by
  unfold onMessage
  by_cases h1 : lastOnChange = some c <;> by_cases h2 : generatePayloadChecksum ck st = some c <;>
    simp [h1, h2]

/-- Claim C10: `MyWallet.logout` without `force` is a no-op while
`isLogoutDisabled` is set; with `force = true` it always issues the logout
request — in particular the forced logout on a post-authentication decrypt
failure inside `getWallet` sends the request even though logout is
disabled. -/
theorem logout_force_bypasses_guard (st : WalletStore) (ck : String → String)
    (ri : Option Nat) (p : Option String)
    (hd : st.logoutDisabled = true) (hp : payloadAbsent p = false) :
    logout false st = [] ∧
    logout true st = [Effect.event "logging_out", Effect.apiRequest "GET" "wallet/logout"] ∧
    Effect.apiRequest "GET" "wallet/logout" ∈
      (getWallet ck ri st (FetchResponse.ok p) false).effects := by
  refine ⟨by simp [logout, hd], by simp [logout], ?_⟩
  match p with
  | none => simp [payloadAbsent] at hp
  | some s =>
      have hs : ¬(s = "" ∨ s = "Not modified") := by
        intro h
        rcases h with h | h <;> rw [h] at hp <;> simp [payloadAbsent] at hp
      have hlen : s.length ≠ 0 := by
        intro h
        apply hs (Or.inl ?_)
        cases s with
        | mk data =>
          cases data with
          | nil => rfl
          | cons c cs => simp [String.length] at h
      simp [getWallet, payloadAbsent, setEncryptedWalletData,
        decryptAndInitializeWallet, logout, hlen, hs]

/-- Witness for C10 at a concrete input: with logout disabled and a fresh
payload that fails to decrypt, the unforced logout does nothing while the
forced one fires inside `getWallet`. -/
theorem logout_force_bypasses_guard_witness :
    logout false { sampleStore with logoutDisabled := true } = [] ∧
    logout true { sampleStore with logoutDisabled := true } =
      [Effect.event "logging_out", Effect.apiRequest "GET" "wallet/logout"] ∧
    Effect.apiRequest "GET" "wallet/logout" ∈
      (getWallet (fun s => s) none { sampleStore with logoutDisabled := true }
        (FetchResponse.ok (some "freshcipher")) false).effects :=
  logout_force_bypasses_guard { sampleStore with logoutDisabled := true }
    (fun s => s) none (some "freshcipher") rfl rfl

/-- Claim C1: when the shared key is absent, empty or not exactly 36
characters the push throws its validation error before any serialization,
encryption or network effect and before touching the store, and likewise
(fatally, via the panic) when the encryption-consistency flag is false. -/
theorem syncWallet_precondition_failfast (ck : String → String) (w : WalletObj)
    (st : WalletStore) (env : SyncEnv)
    (h : sharedKeyInvalid w.sharedKey = true ∨ w.isEncryptionConsistent = false) :
    (syncWallet ck w st env).outcome ≠ SyncOutcome.finished ∧
    (syncWallet ck w st env).store = st ∧
    ((syncWallet ck w st env).effects.all fun e => !e.isCryptoOrNetwork) = true ∧
    (syncWallet ck w st env).successCalled = false := by
  cases hw : w.isEncryptionConsistent with
  | false => simp [syncWallet, hw, Effect.isCryptoOrNetwork]
  | true =>
    rcases h with h | h
    · simp [syncWallet, hw, h]
    · rw [hw] at h
      exact absurd h (by simp)

/-- Witness for C1 at a concrete input: a wallet with no shared key makes
the push throw with no store change and no crypto or network effect. -/
theorem syncWallet_precondition_failfast_witness :
    sharedKeyInvalid noKeyWallet.sharedKey = true ∧
    ((syncWallet (fun s => s) noKeyWallet sampleStore happySyncEnv).outcome ≠
        SyncOutcome.finished ∧
      (syncWallet (fun s => s) noKeyWallet sampleStore happySyncEnv).store = sampleStore ∧
      ((syncWallet (fun s => s) noKeyWallet sampleStore happySyncEnv).effects.all
        fun e => !e.isCryptoOrNetwork) = true ∧
      (syncWallet (fun s => s) noKeyWallet sampleStore happySyncEnv).successCalled = false) :=
  ⟨rfl, syncWallet_precondition_failfast (fun s => s) noKeyWallet sampleStore happySyncEnv
    (Or.inl rfl)⟩

/-- Claim C2: the push uploads the ciphertext only when the immediate
decrypt-again self-check on it succeeded; when that round trip fails the
write-back aborts through the error path and the ciphertext is never
transmitted. -/
theorem syncWallet_upload_requires_selfcheck (ck : String → String) (w : WalletObj)
    (st : WalletStore) (env : SyncEnv) :
    (env.selfDecryptOk = false →
      hasUpload (syncWallet ck w st env).effects = false ∧
      (syncWallet ck w st env).successCalled = false) ∧
    (hasUpload (syncWallet ck w st env).effects = true →
      env.selfDecryptOk = true ∧
      Effect.selfDecryptCheck true ∈ (syncWallet ck w st env).effects) := by
  cases hw : w.isEncryptionConsistent <;>
    cases hk : sharedKeyInvalid w.sharedKey <;>
      cases henc : env.encryptOutcome <;>
        cases hs : env.selfDecryptOk <;>
          simp [syncWallet, hw, hk, henc, hs, syncFail, syncErrorEffects, hasUpload]
  all_goals rename_i crypted
  all_goals by_cases hlen : crypted.length = 0 <;>
    cases hpost : env.postOutcome <;>
      cases hcm : env.checksumMatches <;>
        simp [hlen, hpost, hcm, syncFail, syncErrorEffects, hasUpload]

/-- Claim C3: once the push has disabled logout (its preconditions hold),
every terminating path re-enables it — success, post-push checksum
mismatch, transport error, and exceptions during
serialization/encryption/self-check — and on the checksum-mismatch path
the caller receives the checksum error while `isSynchronizedWithServer`
is left untouched (not set to true). -/
theorem syncWallet_reenables_logout (ck : String → String) (w : WalletObj)
    (st : WalletStore) (env : SyncEnv)
    (hc : w.isEncryptionConsistent = true)
    (hk : sharedKeyInvalid w.sharedKey = false) :
    (syncWallet ck w st env).store.logoutDisabled = false ∧
    (syncWallet ck w st env).outcome = SyncOutcome.finished ∧
    (encryptedNonEmpty env = true → env.selfDecryptOk = true →
      postOk env = true → env.checksumMatches = false →
      (syncWallet ck w st env).errorArg = some "Checksum Did Not Match Expected Value" ∧
      (syncWallet ck w st env).successCalled = false ∧
      (syncWallet ck w st env).store.isSynchronizedWithServer =
        st.isSynchronizedWithServer) := by
  cases henc : env.encryptOutcome with
  | error e =>
      simp [syncWallet, hc, hk, henc, syncFail, enableLogout, disableLogout,
        encryptedNonEmpty]
  | ok crypted =>
    by_cases hlen : crypted.length = 0
    · simp [syncWallet, hc, hk, henc, hlen, syncFail, enableLogout, disableLogout,
        encryptedNonEmpty]
    · cases hs : env.selfDecryptOk with
      | false =>
          simp [syncWallet, hc, hk, henc, hlen, hs, syncFail, enableLogout,
            disableLogout]
      | true =>
        cases hpost : env.postOutcome with
        | error e =>
            simp [syncWallet, hc, hk, henc, hlen, hs, hpost, enableLogout,
              disableLogout, setEncryptedWalletData, postOk]
        | ok u =>
          cases hcm : env.checksumMatches <;>
            simp [syncWallet, hc, hk, henc, hlen, hs, hpost, hcm, enableLogout,
              disableLogout, setEncryptedWalletData]

/-- Witness for C3 at a concrete input: with valid preconditions and a
checksum mismatch after the upload, logout ends re-enabled, the caller
receives the checksum error, and the synchronized flag stays false. -/
theorem syncWallet_reenables_logout_witness :
    (syncWallet (fun s => s) validWallet sampleStore
        { happySyncEnv with checksumMatches := false }).store.logoutDisabled = false ∧
    (syncWallet (fun s => s) validWallet sampleStore
        { happySyncEnv with checksumMatches := false }).outcome = SyncOutcome.finished ∧
    (encryptedNonEmpty { happySyncEnv with checksumMatches := false } = true →
      ({ happySyncEnv with checksumMatches := false } : SyncEnv).selfDecryptOk = true →
      postOk { happySyncEnv with checksumMatches := false } = true →
      ({ happySyncEnv with checksumMatches := false } : SyncEnv).checksumMatches = false →
      (syncWallet (fun s => s) validWallet sampleStore
          { happySyncEnv with checksumMatches := false }).errorArg =
        some "Checksum Did Not Match Expected Value" ∧
      (syncWallet (fun s => s) validWallet sampleStore
          { happySyncEnv with checksumMatches := false }).successCalled = false ∧
      (syncWallet (fun s => s) validWallet sampleStore
          { happySyncEnv with checksumMatches := false }).store.isSynchronizedWithServer =
        sampleStore.isSynchronizedWithServer) :=
  syncWallet_reenables_logout (fun s => s) validWallet sampleStore
    { happySyncEnv with checksumMatches := false } rfl rfl

/-- Claim C5: in a `getWallet` re-fetch after authentication, a response
with no payload (absent, empty, or the literal `Not modified`) is a
successful no-op that changes nothing; a fresh payload whose decryption
fails forces the logout request (even with logout disabled, since the call
is `logout(true)`) and reports the error, with no retry — the full effect
trace on that path is exactly one fetch, the forced logout, and the error
callback. -/
theorem getWallet_remote_decrypt_failure (ck : String → String) (ri : Option Nat)
    (st : WalletStore) (p : Option String) :
    (payloadAbsent p = true →
      getWallet ck ri st (FetchResponse.ok p) false =
        { store := st,
          effects := [Effect.apiRequest "POST" "wallet", Effect.callback "success"],
          successCalled := true, errorCalled := false }) ∧
    (payloadAbsent p = false →
      (getWallet ck ri st (FetchResponse.ok p) false).successCalled = false ∧
      (getWallet ck ri st (FetchResponse.ok p) false).errorCalled = true ∧
      (getWallet ck ri st (FetchResponse.ok p) false).effects =
        [Effect.apiRequest "POST" "wallet", Effect.event "logging_out",
          Effect.apiRequest "GET" "wallet/logout", Effect.callback "error"]) := by
  constructor
  · intro hab
    simp [getWallet, hab]
  · intro hab
    match p with
    | none => simp [payloadAbsent] at hab
    | some s =>
        have hs : ¬(s = "" ∨ s = "Not modified") := by
          intro h
          rcases h with h | h <;> rw [h] at hab <;> simp [payloadAbsent] at hab
        have hlen : s.length ≠ 0 := by
          intro h
          apply hs (Or.inl ?_)
          cases s with
          | mk data =>
            cases data with
            | nil => rfl
            | cons c cs => simp [String.length] at h
        simp [getWallet, payloadAbsent, setEncryptedWalletData,
          decryptAndInitializeWallet, logout, hlen, hs]

/-- Claim C6, evaluated at the failing input: wallet.js asserts an
`otherError` callback is required, yet the client-side rejection branches
call the bare, undeclared identifier `otherError`, so a `null` or empty
two-factor code makes no network request but terminates in an uncaught
`ReferenceError` — no error callback fires and no state is touched —
where the claim (and the spec) say the rejection is routed through the
error callback.  The remaining clauses of the claim are faithful to the
source and are evaluated alongside: type 5 upper-cases the submitted code,
type 3 submits it verbatim, and a server-rejected code clears the
restoring-wallet flag before `wrongTwoFactorCode`. -/
theorem twoFA_invalid_code_reference_error :
    (tryToFetchWalletWith2FA (fun s => s) { tfaType := 5, code := some "" }
        sampleStore (TwoFAResponse.ok (some "payload"))).outcome =
      TwoFAOutcome.threwReferenceError ∧
    (tryToFetchWalletWith2FA (fun s => s) { tfaType := 5, code := some "" }
        sampleStore (TwoFAResponse.ok (some "payload"))).effects = [] ∧
    (tryToFetchWalletWith2FA (fun s => s) { tfaType := 5, code := some "" }
        sampleStore (TwoFAResponse.ok (some "payload"))).store = sampleStore ∧
    (tryToFetchWalletWith2FA (fun s => s) { tfaType := 5, code := none }
        sampleStore (TwoFAResponse.ok (some "payload"))).outcome =
      TwoFAOutcome.threwReferenceError ∧
    (tryToFetchWalletWith2FA (fun s => s) { tfaType := 5, code := some "abc123" }
        sampleStore (TwoFAResponse.ok (some "payload"))).submittedCode =
      some ("abc123".toUpper) ∧
    (tryToFetchWalletWith2FA (fun s => s) { tfaType := 3, code := some "abc123" }
        sampleStore (TwoFAResponse.ok (some "payload"))).submittedCode = some "abc123" ∧
    (tryToFetchWalletWith2FA (fun s => s) { tfaType := 5, code := some "abc123" }
        { sampleStore with restoringWallet := true }
        (TwoFAResponse.err "wrong")).effects =
      [Effect.submit2FACode ("abc123".toUpper), Effect.setRestoring false,
        Effect.callback "wrongTwoFactorCode"] ∧
    (tryToFetchWalletWith2FA (fun s => s) { tfaType := 5, code := some "abc123" }
        { sampleStore with restoringWallet := true }
        (TwoFAResponse.err "wrong")).store.restoringWallet = false := by
  refine ⟨rfl, rfl, rfl, rfl, rfl, rfl, rfl, rfl⟩

/-- Counterexample to claim C7 as stated: a transport error on the very
first poll request terminates the polling run (the in-flight guard is
released) without a session guid having been received — the success
callback never fires — and without the counter bound having been
exhausted (the counter is still 0 and only one request was issued). -/
theorem pollForSessionGUID_error_termination_cex :
    (pollForSessionGUID sampleStore [PollResponse.failed]).outcome =
        PollOutcome.transportError ∧
    (pollForSessionGUID sampleStore [PollResponse.failed]).successCalled = false ∧
    (pollForSessionGUID sampleStore [PollResponse.failed]).store.polling = false ∧
    (pollForSessionGUID sampleStore [PollResponse.failed]).store.counter = 0 ∧
    (pollForSessionGUID sampleStore [PollResponse.failed]).requests = 1 :=
  ⟨rfl, rfl, rfl, rfl, rfl⟩

/-- The retry loop of `pollForSessionGUID` issues at most
`600 - counter + 1` requests, every retry delay it schedules is 2000 ms,
the success callback fires exactly when a session guid arrived, and every
settled termination releases the polling guard. -/
theorem pollLoop_spec (rs : List PollResponse) : ∀ st : WalletStore,
    (pollLoop st rs).requests ≤ (600 - st.counter) + 1 ∧
    ((pollLoop st rs).delays.all fun d => d == 2000) = true ∧
    ((pollLoop st rs).successCalled = true ↔
      (pollLoop st rs).outcome = PollOutcome.gotGuid) ∧
    ((pollLoop st rs).outcome = PollOutcome.gotGuid ∨
      (pollLoop st rs).outcome = PollOutcome.transportError ∨
      (pollLoop st rs).outcome = PollOutcome.exhausted →
      (pollLoop st rs).store.polling = false) := by
  induction rs with
  | nil =>
      intro st
      simp [pollLoop]
  | cons r rest ih =>
    intro st
    cases r with
    | withGuid => simp [pollLoop]
    | failed => simp [pollLoop]
    | noGuid =>
      by_cases h : st.counter < 600
      · obtain ⟨ihreq, ihdel, ihsu, ihpo⟩ := ih { st with counter := st.counter + 1 }
        refine ⟨?_, ?_, ?_, ?_⟩
        · simp only [pollLoop, if_pos h]
          have : (600 - (st.counter + 1)) + 1 + 1 ≥
              (pollLoop { st with counter := st.counter + 1 } rest).requests + 1 :=
            Nat.add_le_add_right ihreq 1
          refine le_trans this ?_
          omega
        · simp only [pollLoop, if_pos h, List.all_cons]
          simp [ihdel]
        · simp only [pollLoop, if_pos h]
          exact ihsu
        · simp only [pollLoop, if_pos h]
          exact ihpo
      · simp [pollLoop, h]

/-- Claim C7 (amended): the device-authorization polling is a no-op while
a poll is already in flight; otherwise it issues at most
`600 - counter + 1` requests (the counter is capped at 600), spaces every
retry by a fixed 2000 ms delay, and terminates by receiving a session
guid (firing the success callback), by exhausting the counter bound, or by
a transport error on a poll request — each settled termination releasing
the polling guard, with the success callback firing only in the guid
case. -/
theorem pollForSessionGUID_bounded_and_guarded (st : WalletStore)
    (rs : List PollResponse) :
    (st.polling = true → pollForSessionGUID st rs =
      { store := st, requests := 0, delays := [], successCalled := false,
        outcome := PollOutcome.alreadyPolling }) ∧
    (pollForSessionGUID st rs).requests ≤ (600 - st.counter) + 1 ∧
    ((pollForSessionGUID st rs).delays.all fun d => d == 2000) = true ∧
    ((pollForSessionGUID st rs).successCalled = true ↔
      (pollForSessionGUID st rs).outcome = PollOutcome.gotGuid) ∧
    ((pollForSessionGUID st rs).outcome = PollOutcome.gotGuid ∨
      (pollForSessionGUID st rs).outcome = PollOutcome.transportError ∨
      (pollForSessionGUID st rs).outcome = PollOutcome.exhausted →
      (pollForSessionGUID st rs).store.polling = false) := by
  cases hp : st.polling with
  | true =>
      refine ⟨fun _ => by simp [pollForSessionGUID, hp], ?_⟩
      simp [pollForSessionGUID, hp]
  | false =>
      have hspec := pollLoop_spec rs { st with polling := true }
      have hred : pollForSessionGUID st rs = pollLoop { st with polling := true } rs := by
        simp [pollForSessionGUID, hp]
      refine ⟨fun hcontr => by simp [hp] at hcontr, ?_⟩
      rw [hred]
      exact hspec

end MyWalletV3
